import Mathlib

/-
Verification of the authentication core of the pinniped repository:
the RFC 8693 token-exchange handler (package oidc) and the upstream
LDAP provider (package upstreamldap).

The Go source is shallowly embedded: pure Go functions become Lean
functions on `String`/`List Char`; Go's `(value, error)` returns become
`Except`/`Option`; the fosite framework collaborators (token strategy,
token storage, LDAP connections and dialers) are modelled as function
fields, since the handler only ever calls through their interfaces.
Strings are modelled at the level of characters; all string constants
involved in the verified claims are ASCII, where Go's byte-level
operations and the character-level model coincide.
-/

set_option maxRecDepth 8192
set_option maxHeartbeats 1600000

/-! ## Character-list helpers

Executable models for the Go standard-library string primitives used by
the source (`strings.HasPrefix`, `strings.HasSuffix`, `strings.Contains`,
`strings.ReplaceAll`, and byte/colon scanning in `net.SplitHostPort`). -/

/-- Model of a byte scan `c == t` membership test over a string's characters. -/
def listHasChar : List Char → Char → Bool
  | [], _ => false
  | c :: cs, t => c == t || listHasChar cs t

/-- Model of `strings.HasPrefix` at the character-list level:
`listIsPre pat l` is true when `pat` is a prefix of `l`. -/
def listIsPre : List Char → List Char → Bool
  | [], _ => true
  | _ :: _, [] => false
  | a :: as, b :: bs => a == b && listIsPre as bs

/-- Model of `strings.Contains` at the character-list level:
true when `needle` occurs as a contiguous run inside `hay`. -/
def listIsInf (needle : List Char) : List Char → Bool
  | [] => needle.isEmpty
  | c :: cs => listIsPre needle (c :: cs) || listIsInf needle cs

/-- Model of `strings.HasPrefix s pre`. -/
def strStartsWith (s pre : String) : Bool :=
  listIsPre pre.toList s.toList

/-- Model of `strings.HasSuffix s suf`. -/
def strEndsWith (s suf : String) : Bool :=
  listIsPre suf.toList.reverse s.toList.reverse

/-- Model of `strings.Contains s sub`. -/
def strContains (s sub : String) : Bool :=
  listIsInf sub.toList s.toList

/-- Model of `strings.ReplaceAll` at the character-list level: replace
every non-overlapping occurrence of `pat` in the subject, scanning left
to right.  (The source only ever calls it with the non-empty pattern
`"\x7b\x7d"`; for an empty pattern this model leaves the subject
unchanged.) -/
def replaceAllL (pat repl : List Char) : Nat → List Char → List Char
  | _, [] => []
  | 0, l => l
  | fuel + 1, c :: rest =>
    if pat ≠ [] ∧ listIsPre pat (c :: rest) = true then
      repl ++ replaceAllL pat repl fuel (List.drop (pat.length - 1) rest)
    else
      c :: replaceAllL pat repl fuel rest

/-- Model of `strings.ReplaceAll` on strings.  The fuel argument of
`replaceAllL` only serves structural recursion; every step consumes at
least one subject character, so the subject's length is always enough. -/
def strReplaceAll (s pat repl : String) : String :=
  ⟨replaceAllL pat.toList repl.toList s.toList.length s.toList⟩

/-! ## Token-exchange handler (package oidc)

Embeds `TokenExchangeHandler` from the source.  The fosite framework
collaborators (`AccessTokenStrategy`, `AccessTokenStorage`,
`OpenIDConnectTokenStrategy`) are modelled as function fields of the
handler, and the requester/responder capability sets as structures. -/

/-- Source constant `tokenTypeAccessToken`. -/
def tokenTypeAccessToken : String := "urn:ietf:params:oauth:token-type:access_token"

/-- Source constant `tokenTypeJWT`. -/
def tokenTypeJWT : String := "urn:ietf:params:oauth:token-type:jwt"

/-- Modelled from the spec: the constant `oidcapi.ClientIDPinnipedCLI` lives in a
generated package that is not under src/.  The source comment in
`validateParams` names it: "pinniped-cli is reserved for the statically
defined OAuth client". -/
def clientIDPinnipedCLI : String := "pinniped-cli"

/-- Modelled from the spec: the constant `oidcapi.GrantTypeTokenExchange` is not
under src/; spec section 6 gives the token endpoint input
`grant_type = urn:ietf:params:oauth:grant-type:token-exchange`. -/
def grantTypeTokenExchange : String := "urn:ietf:params:oauth:grant-type:token-exchange"

/-- Modelled from the spec: the constant `oidcapi.ScopeRequestAudience` is not
under src/; spec scenario 5 lists the granted scope `pinniped:request-audience`. -/
def scopeRequestAudience : String := "pinniped:request-audience"

/-- Modelled from the spec: the constant `oidcapi.ScopeOpenID` is not under
src/; spec section 8 names the `openid` scope. -/
def scopeOpenID : String := "openid"

/-- Modelled from the spec: the constant `oidcapi.ScopeUsername` is not under
src/; spec scenario 5 lists the granted scope `username`. -/
def scopeUsername : String := "username"

/-- Modelled from the spec: the constant `oidcapi.IDTokenClaimUsername` is not
under src/; spec section 4.5 says the session's ID-token claims carry a
`username` string claim. -/
def idTokenClaimUsername : String := "username"

/-- Errors surfaced by the token-exchange handler, one constructor per
fosite error kind used by the source, each carrying its hint string. -/
inductive FositeErr where
  | unknownRequest
  | invalidRequest (hint : String)
  | requestUnauthorized (hint : String)
  | invalidGrant (hint : String)
  | unauthorizedClient (hint : String)
  | accessDenied (hint : String)
  | serverError (hint : String)
  | strategyFailure (msg : String)
deriving DecidableEq, Repr

/-- Request form parameters (`url.Values`): an association list; `Get`
returns the first value for a key, or the empty string. -/
def FormParams := List (String × String)

/-- Model of `url.Values.Get`. -/
def getParam (params : FormParams) (key : String) : String :=
  match List.find? (fun p => p.1 == key) params with
  | some p => p.2
  | none => ""

/-- Source struct `stsParams`. -/
structure StsParams where
  subjectAccessToken : String
  requestedAudience : String
deriving DecidableEq, Repr

/-- Embedding of `(*TokenExchangeHandler).validateParams`, line for line. -/
def validateParams (params : FormParams) : Except FositeErr StsParams :=
  let requestedAudience := getParam params "audience"
  if requestedAudience = "" then
    .error (.invalidRequest "Missing \x27audience\x27 parameter.")
  else
    let subjectAccessToken := getParam params "subject_token"
    if subjectAccessToken = "" then
      .error (.invalidRequest "Missing \x27subject_token\x27 parameter.")
    else if getParam params "subject_token_type" ≠ tokenTypeAccessToken then
      .error (.invalidRequest s!"Unsupported \x27subject_token_type\x27 parameter value, must be \"{tokenTypeAccessToken}\".")
    else if getParam params "requested_token_type" ≠ tokenTypeJWT then
      .error (.invalidRequest s!"Unsupported \x27requested_token_type\x27 parameter value, must be \"{tokenTypeJWT}\".")
    else if getParam params "resource" ≠ "" then
      .error (.invalidRequest "Unsupported parameter \"resource\".")
    else if getParam params "scope" ≠ "" then
      .error (.invalidRequest "Unsupported parameter \"scope\".")
    else if getParam params "actor_token" ≠ "" then
      .error (.invalidRequest "Unsupported parameter \"actor_token\".")
    else if getParam params "actor_token_type" ≠ "" then
      .error (.invalidRequest "Unsupported parameter \"actor_token_type\".")
    else if strContains requestedAudience ".pinniped.dev" then
      .error (.invalidRequest "requested audience cannot contain \x27.pinniped.dev\x27")
    else if requestedAudience = clientIDPinnipedCLI then
      .error (.invalidRequest s!"requested audience cannot equal \x27{clientIDPinnipedCLI}\x27")
    else
      .ok { subjectAccessToken := subjectAccessToken, requestedAudience := requestedAudience }

/-- Model of an OAuth client as seen through `fosite.Client`: `GetID` and
`GetGrantTypes`. -/
structure FClient where
  id : String
  grantTypes : List String
deriving DecidableEq, Repr

/-- A claim value stored in the session's ID-token `Extra` map: either a
string or some non-string value (whose precise shape the handler never
inspects beyond the failed type assertion). -/
inductive ClaimVal where
  | str (s : String)
  | nonString
deriving DecidableEq, Repr

/-- The session object attached to a request.  `pinniped d` models a
`*psession.PinnipedSession` whose `IDTokenClaims().Extra` map is `d`;
`otherSession` models any session value for which the type assertion in
`validateSession` fails. -/
inductive Session where
  | pinniped (idTokenExtra : List (String × ClaimVal))
  | otherSession
deriving DecidableEq, Repr

/-- Lookup in the ID-token claims `Extra` map. -/
def lookupClaim (extra : List (String × ClaimVal)) (key : String) : Option ClaimVal :=
  match List.find? (fun p => p.1 == key) extra with
  | some p => some p.2
  | none => none

/-- The view of `fosite.AccessRequester` used by the handler: granted
grant types, the request form, the authenticated client, and the session. -/
structure AccessRequester where
  grantTypes : List String
  form : FormParams
  client : FClient
  session : Session

/-- The view of the original authorize request (a `fosite.Requester`)
reconstituted from the subject access token: client, granted scopes, and
stored session. -/
structure OriginalRequester where
  client : FClient
  grantedScopes : List String
  session : Session

/-- The downscoped access request built by `mintJWT`:
`fosite.NewAccessRequest(session)` followed by overwriting the client ID. -/
structure DownscopedAccessRequest where
  session : Session
  clientID : String

/-- The `fosite.AccessResponder` state touched by the handler.  `extra`
is the extra-fields map (`SetExtra` is a keyed update). -/
structure AccessResponder where
  accessToken : Option String
  tokenType : Option String
  extra : String → Option String

/-- Model of `AccessResponder.SetAccessToken`. -/
def setAccessToken (r : AccessResponder) (v : String) : AccessResponder :=
  { r with accessToken := some v }

/-- Model of `AccessResponder.SetTokenType`. -/
def setTokenType (r : AccessResponder) (v : String) : AccessResponder :=
  { r with tokenType := some v }

/-- Model of `AccessResponder.SetExtra`. -/
def setExtra (r : AccessResponder) (key value : String) : AccessResponder :=
  { r with extra := fun q => if q = key then some value else r.extra q }

/-- Embedding of `TokenExchangeHandler`.  The three injected fosite
collaborators become function fields: `accessTokenSignature` and the
pair `getAccessTokenSession`/`validateAccessTokenCheck` model the
`AccessTokenStrategy` and `AccessTokenStorage`, and `generateIDToken`
models `OpenIDConnectTokenStrategy.GenerateIDToken`. -/
structure TokenExchangeHandler where
  accessTokenSignature : String → String
  getAccessTokenSession : String → Except String OriginalRequester
  validateAccessTokenCheck : OriginalRequester → String → Option FositeErr
  generateIDToken : DownscopedAccessRequest → Except FositeErr String

/-- Model of `fosite.Arguments.ExactOne`. -/
def argumentsExactOne (args : List String) (name : String) : Bool :=
  match args with
  | [x] => x == name
  | _ => false

/-- Embedding of `(*TokenExchangeHandler).CanHandleTokenEndpointRequest`. -/
def canHandleTokenEndpointRequest (requester : AccessRequester) : Bool :=
  argumentsExactOne requester.grantTypes grantTypeTokenExchange

/-- Embedding of `(*TokenExchangeHandler).HandleTokenEndpointRequest`:
`none` means a nil error. -/
def handleTokenEndpointRequest (requester : AccessRequester) : Option FositeErr :=
  if canHandleTokenEndpointRequest requester then none
  else some .unknownRequest

/-- Embedding of `(*TokenExchangeHandler).validateAccessToken`. -/
def validateAccessToken (t : TokenExchangeHandler) (accessToken : String) :
    Except FositeErr OriginalRequester :=
  let signature := t.accessTokenSignature accessToken
  match t.getAccessTokenSession signature with
  | .error _ =>
    .error (.requestUnauthorized "Invalid \x27subject_token\x27 parameter value.")
  | .ok originalRequester =>
    match t.validateAccessTokenCheck originalRequester accessToken with
    | some e => .error e
    | none => .ok originalRequester

/-- Embedding of `(*TokenExchangeHandler).validateSession`. -/
def validateSession (s : Session) : Option FositeErr :=
  match s with
  | .otherSession => some (.serverError "Invalid session storage.")
  | .pinniped extra =>
    match lookupClaim extra idTokenClaimUsername with
    | some (.str username) =>
      if username = "" then
        some (.accessDenied s!"No username found in session. Ensure that the \"{scopeUsername}\" scope was requested and granted at the authorization endpoint.")
      else none
    | _ =>
      some (.accessDenied s!"No username found in session. Ensure that the \"{scopeUsername}\" scope was requested and granted at the authorization endpoint.")

/-- Embedding of `(*TokenExchangeHandler).mintJWT`: build a fresh access
request seeded with the original session, overwrite its client ID with
the requested audience, and hand it to the ID-token strategy. -/
def mintJWT (t : TokenExchangeHandler) (sess : Session) (audience : String) :
    Except FositeErr String :=
  t.generateIDToken { session := sess, clientID := audience }

/-- The tail of `PopulateTokenEndpointResponse` after the two scope
checks: session validation, JWT minting, and populating the responder. -/
def finishTokenExchange (t : TokenExchangeHandler) (params : StsParams)
    (originalRequester : OriginalRequester) (responder : AccessResponder) :
    Option FositeErr × AccessResponder :=
  match validateSession originalRequester.session with
  | some e => (some e, responder)
  | none =>
    match mintJWT t originalRequester.session params.requestedAudience with
    | .error e => (some e, responder)
    | .ok responseToken =>
      (none, setExtra (setTokenType (setAccessToken responder responseToken) "N_A")
        "issued_token_type" tokenTypeJWT)

/-- Embedding of `(*TokenExchangeHandler).PopulateTokenEndpointResponse`.
The Go function mutates `responder` and returns an error; here it
returns the error (or `none`) together with the resulting responder. -/
def populateTokenEndpointResponse (t : TokenExchangeHandler)
    (requester : AccessRequester) (responder : AccessResponder) :
    Option FositeErr × AccessResponder :=
  match handleTokenEndpointRequest requester with
  | some e => (some e, responder)
  | none =>
    match validateParams requester.form with
    | .error e => (some e, responder)
    | .ok params =>
      match validateAccessToken t params.subjectAccessToken with
      | .error e => (some e, responder)
      | .ok originalRequester =>
        if originalRequester.client.id ≠ requester.client.id then
          (some (.invalidGrant "The OAuth 2.0 Client ID from this request does not match the one from the authorize request."), responder)
        else if ¬ requester.client.grantTypes.contains grantTypeTokenExchange then
          (some (.unauthorizedClient s!"The OAuth 2.0 Client is not allowed to use token exchange grant \"{grantTypeTokenExchange}\"."), responder)
        else if ¬ originalRequester.grantedScopes.contains scopeRequestAudience then
          (some (.accessDenied s!"Missing the \"{scopeRequestAudience}\" scope."), responder)
        else if ¬ originalRequester.grantedScopes.contains scopeOpenID then
          (some (.accessDenied s!"Missing the \"{scopeOpenID}\" scope."), responder)
        else
          finishTokenExchange t params originalRequester responder


/-! ## Claims about parameter validation (C2, C3) -/

/-- True exactly when the validation result is an invalid-request error. -/
def failsInvalidRequest (r : Except FositeErr StsParams) : Bool :=
  match r with
  | .error (.invalidRequest _) => true
  | _ => false

/-- C3: `validateParams` fails with an invalid-request error if and only
if one of the listed conditions holds (empty audience, empty
subject_token, wrong subject_token_type, wrong requested_token_type, a
non-empty forbidden parameter, or an audience failing the reservation
policy); otherwise it succeeds and returns the audience and the subject
token.  Every failure of `validateParams` is an invalid-request error
carrying a hint naming the offending parameter, as listed in the
branches of the definition. -/
theorem spec_c3_validateParams_characterization (params : FormParams) :
    (failsInvalidRequest (validateParams params) = true ↔
      (getParam params "audience" = "" ∨
       getParam params "subject_token" = "" ∨
       getParam params "subject_token_type" ≠ tokenTypeAccessToken ∨
       getParam params "requested_token_type" ≠ tokenTypeJWT ∨
       getParam params "resource" ≠ "" ∨
       getParam params "scope" ≠ "" ∨
       getParam params "actor_token" ≠ "" ∨
       getParam params "actor_token_type" ≠ "" ∨
       strContains (getParam params "audience") ".pinniped.dev" = true ∨
       getParam params "audience" = clientIDPinnipedCLI))
    ∧ (failsInvalidRequest (validateParams params) = false →
       validateParams params =
         .ok { subjectAccessToken := getParam params "subject_token",
               requestedAudience := getParam params "audience" }) := by
  simp only [validateParams]
  split_ifs with h1 h2 h3 h4 h5 h6 h7 h8 h9 h10 <;>
    refine ⟨?_, ?_⟩ <;> simp only [failsInvalidRequest] <;>
    first
      | (intro h; cases h)
      | (intro h; rfl)
      | tauto
  all_goals trivial

/-- Witness for C3 at a concrete request: the full parameter set with
audience `cluster-1` does not fail, so validation returns the audience
and subject token. -/
theorem spec_c3_witness :
    validateParams
      [("audience", "cluster-1"), ("subject_token", "tok"),
       ("subject_token_type", tokenTypeAccessToken),
       ("requested_token_type", tokenTypeJWT)] =
      .ok { subjectAccessToken := "tok", requestedAudience := "cluster-1" } :=
  (spec_c3_validateParams_characterization
      [("audience", "cluster-1"), ("subject_token", "tok"),
       ("subject_token_type", tokenTypeAccessToken),
       ("requested_token_type", tokenTypeJWT)]).2 (by decide)

/-- C2: given that all the other request parameters are acceptable,
`validateParams` rejects with invalid-request exactly the audiences that
contain the substring `.pinniped.dev` (checked anywhere in the string,
case-sensitively on the literal characters) or that equal the reserved
CLI client identifier, and accepts every other (necessarily non-empty)
audience value. -/
theorem spec_c2_audience_reservation (params : FormParams)
    (hne : getParam params "audience" ≠ "")
    (hst : getParam params "subject_token" ≠ "")
    (hstt : getParam params "subject_token_type" = tokenTypeAccessToken)
    (hrtt : getParam params "requested_token_type" = tokenTypeJWT)
    (hres : getParam params "resource" = "")
    (hsc : getParam params "scope" = "")
    (hat : getParam params "actor_token" = "")
    (hatt : getParam params "actor_token_type" = "") :
    (strContains (getParam params "audience") ".pinniped.dev" = true →
      validateParams params =
        .error (.invalidRequest "requested audience cannot contain \x27.pinniped.dev\x27"))
    ∧ (getParam params "audience" = clientIDPinnipedCLI →
      validateParams params =
        .error (.invalidRequest "requested audience cannot equal \x27pinniped-cli\x27"))
    ∧ (strContains (getParam params "audience") ".pinniped.dev" = false →
      getParam params "audience" ≠ clientIDPinnipedCLI →
      validateParams params =
        .ok { subjectAccessToken := getParam params "subject_token",
              requestedAudience := getParam params "audience" }) := by
  refine ⟨fun hcont => ?_, fun hcli => ?_, fun hcont hcli => ?_⟩
  · simp only [validateParams]
    split_ifs <;> first | rfl | tauto | (exfalso; simp_all)
  · have hcont : strContains (getParam params "audience") ".pinniped.dev" = false := by
      rw [hcli]; decide
    simp only [validateParams]
    split_ifs <;> first | rfl | tauto | (exfalso; simp_all)
  · simp only [validateParams]
    split_ifs <;> first | rfl | tauto | (exfalso; simp_all)

/-- Witness for C2 at concrete audiences: `foo.pinniped.dev/x` is
rejected, `pinniped-cli` is rejected, and `cluster-1` is accepted. -/
theorem spec_c2_witness :
    validateParams
      [("audience", "foo.pinniped.dev/x"), ("subject_token", "tok"),
       ("subject_token_type", tokenTypeAccessToken),
       ("requested_token_type", tokenTypeJWT)] =
      .error (.invalidRequest "requested audience cannot contain \x27.pinniped.dev\x27") ∧
    validateParams
      [("audience", "pinniped-cli"), ("subject_token", "tok"),
       ("subject_token_type", tokenTypeAccessToken),
       ("requested_token_type", tokenTypeJWT)] =
      .error (.invalidRequest "requested audience cannot equal \x27pinniped-cli\x27") ∧
    validateParams
      [("audience", "cluster-1"), ("subject_token", "tok"),
       ("subject_token_type", tokenTypeAccessToken),
       ("requested_token_type", tokenTypeJWT)] =
      .ok { subjectAccessToken := "tok", requestedAudience := "cluster-1" } :=
  ⟨(spec_c2_audience_reservation _ (by decide) (by decide) (by decide) (by decide)
      (by decide) (by decide) (by decide) (by decide)).1 (by decide),
   (spec_c2_audience_reservation _ (by decide) (by decide) (by decide) (by decide)
      (by decide) (by decide) (by decide) (by decide)).2.1 (by decide),
   (spec_c2_audience_reservation _ (by decide) (by decide) (by decide) (by decide)
      (by decide) (by decide) (by decide) (by decide)).2.2 (by decide) (by decide)⟩

/-! ## Claims about the token-exchange orchestration (C1, C4, C10) -/

/-- On every control path, `PopulateTokenEndpointResponse` either
returns a nil error or leaves the responder exactly as it received it. -/
theorem populate_error_or_unchanged (t : TokenExchangeHandler)
    (req : AccessRequester) (r : AccessResponder) :
    (populateTokenEndpointResponse t req r).1 = none ∨
    (populateTokenEndpointResponse t req r).2 = r := by
  unfold populateTokenEndpointResponse finishTokenExchange
  repeat' split
  all_goals first | (left; rfl) | (right; rfl)

/-- C10: on every error path of `PopulateTokenEndpointResponse` the
responder is left completely unmodified; `SetAccessToken`,
`SetTokenType` and `SetExtra` are reached only on the success path. -/
theorem spec_c10_error_leaves_responder_unmodified (t : TokenExchangeHandler)
    (req : AccessRequester) (r : AccessResponder) (e : FositeErr)
    (herr : (populateTokenEndpointResponse t req r).1 = some e) :
    (populateTokenEndpointResponse t req r).2 = r := by
  rcases populate_error_or_unchanged t req r with h | h
  · rw [herr] at h; cases h
  · exact h

/-- A handler whose collaborators always fail the storage lookup; used
to drive `populateTokenEndpointResponse` into an error path. -/
def failingHandler : TokenExchangeHandler where
  accessTokenSignature := fun s => s
  getAccessTokenSession := fun _ => .error "no such token"
  validateAccessTokenCheck := fun _ _ => none
  generateIDToken := fun _ => .ok "unused"

/-- A request whose grant types are not exactly the token-exchange URN. -/
def wrongGrantRequest : AccessRequester where
  grantTypes := ["authorization_code"]
  form := []
  client := { id := "client-a", grantTypes := ["authorization_code"] }
  session := .otherSession

/-- The all-empty responder handed to the handler by the framework. -/
def emptyResponder : AccessResponder where
  accessToken := none
  tokenType := none
  extra := fun _ => none

/-- Witness for C10: a request with the wrong grant type takes an error
path (unknown request) and the responder comes back unmodified. -/
theorem spec_c10_witness :
    (populateTokenEndpointResponse failingHandler wrongGrantRequest emptyResponder).2 =
      emptyResponder :=
  spec_c10_error_leaves_responder_unmodified failingHandler wrongGrantRequest
    emptyResponder .unknownRequest (by decide)

/-- C1: for every token-exchange request that passes gating, parameter
validation, subject-token validation, client continuity, grant-type,
scope and session checks, and for which the ID-token strategy succeeds
on the downscoped access request whose client ID has been overwritten
to the requested audience (so the minted token is intended for exactly
the requested audience), `PopulateTokenEndpointResponse` sets
`access_token` to that JWT, `token_type` to the literal `"N_A"`, and the
extra field `issued_token_type` to the JWT token-type URN. -/
theorem spec_c1_success_populates_response (t : TokenExchangeHandler)
    (req : AccessRequester) (r : AccessResponder)
    (params : StsParams) (orig : OriginalRequester) (token : String)
    (hgate : handleTokenEndpointRequest req = none)
    (hparams : validateParams req.form = .ok params)
    (hsubject : validateAccessToken t params.subjectAccessToken = .ok orig)
    (hclient : orig.client.id = req.client.id)
    (hgrant : req.client.grantTypes.contains grantTypeTokenExchange = true)
    (hscopeRA : orig.grantedScopes.contains scopeRequestAudience = true)
    (hscopeOID : orig.grantedScopes.contains scopeOpenID = true)
    (hsession : validateSession orig.session = none)
    (hmint : t.generateIDToken
      { session := orig.session, clientID := params.requestedAudience } = .ok token) :
    (populateTokenEndpointResponse t req r).1 = none ∧
    ((populateTokenEndpointResponse t req r).2).accessToken = some token ∧
    ((populateTokenEndpointResponse t req r).2).tokenType = some "N_A" ∧
    ((populateTokenEndpointResponse t req r).2).extra "issued_token_type" =
      some tokenTypeJWT := by
  unfold populateTokenEndpointResponse
  simp only [hgate, hparams, hsubject]
  rw [if_neg (by simp [hclient]), if_neg (by simpa using hgrant),
    if_neg (by simpa using hscopeRA), if_neg (by simpa using hscopeOID)]
  unfold finishTokenExchange mintJWT
  simp only [hsession, hmint]
  simp [setExtra, setTokenType, setAccessToken]

/-- The session stored for the subject token in the witness scenario:
a pinniped session whose ID-token claims carry username `alice`. -/
def witnessSession : Session := .pinniped [("username", .str "alice")]

/-- The original authorize request looked up for the witness scenario. -/
def witnessOriginal : OriginalRequester where
  client := { id := "client-a", grantTypes := [grantTypeTokenExchange] }
  grantedScopes := ["openid", "pinniped:request-audience", "username"]
  session := witnessSession

/-- A handler whose storage resolves every signature to
`witnessOriginal` and whose strategies always succeed; the minted JWT
records the audience it was minted for. -/
def witnessHandler : TokenExchangeHandler where
  accessTokenSignature := fun s => s
  getAccessTokenSession := fun _ => .ok witnessOriginal
  validateAccessTokenCheck := fun _ _ => none
  generateIDToken := fun d => .ok ("jwt-aud:" ++ d.clientID)

/-- The incoming token-exchange request of the witness scenario. -/
def witnessRequest : AccessRequester where
  grantTypes := [grantTypeTokenExchange]
  form := [("audience", "cluster-a"), ("subject_token", "subject-token-value"),
           ("subject_token_type", tokenTypeAccessToken),
           ("requested_token_type", tokenTypeJWT)]
  client := { id := "client-a", grantTypes := [grantTypeTokenExchange] }
  session := witnessSession

/-- Witness for C1: the concrete happy-path exchange mints a JWT for
audience `cluster-a` and fills the three response fields. -/
theorem spec_c1_witness :
    (populateTokenEndpointResponse witnessHandler witnessRequest emptyResponder).1 = none ∧
    ((populateTokenEndpointResponse witnessHandler witnessRequest emptyResponder).2).accessToken =
      some "jwt-aud:cluster-a" ∧
    ((populateTokenEndpointResponse witnessHandler witnessRequest emptyResponder).2).tokenType =
      some "N_A" ∧
    ((populateTokenEndpointResponse witnessHandler witnessRequest emptyResponder).2).extra
      "issued_token_type" = some tokenTypeJWT :=
  spec_c1_success_populates_response witnessHandler witnessRequest emptyResponder
    { subjectAccessToken := "subject-token-value", requestedAudience := "cluster-a" }
    witnessOriginal "jwt-aud:cluster-a"
    (by decide) (by rfl) (by rfl) (by rfl) (by decide) (by decide)
    (by decide) (by decide) (by rfl)

/-- C4: once gating, parameter validation, subject-token validation,
client continuity and grant-type permission have passed, the handler
first demands the request-audience scope on the original grant
(access-denied naming it when absent), then the OpenID scope
(access-denied naming it when absent), and continues to the session and
minting steps only when both scopes are present. -/
theorem spec_c4_scope_gating (t : TokenExchangeHandler)
    (req : AccessRequester) (r : AccessResponder)
    (params : StsParams) (orig : OriginalRequester)
    (hgate : handleTokenEndpointRequest req = none)
    (hparams : validateParams req.form = .ok params)
    (hsubject : validateAccessToken t params.subjectAccessToken = .ok orig)
    (hclient : orig.client.id = req.client.id)
    (hgrant : req.client.grantTypes.contains grantTypeTokenExchange = true) :
    (orig.grantedScopes.contains scopeRequestAudience = false →
      populateTokenEndpointResponse t req r =
        (some (.accessDenied s!"Missing the \"{scopeRequestAudience}\" scope."), r))
    ∧ (orig.grantedScopes.contains scopeRequestAudience = true →
      orig.grantedScopes.contains scopeOpenID = false →
      populateTokenEndpointResponse t req r =
        (some (.accessDenied s!"Missing the \"{scopeOpenID}\" scope."), r))
    ∧ (orig.grantedScopes.contains scopeRequestAudience = true →
      orig.grantedScopes.contains scopeOpenID = true →
      populateTokenEndpointResponse t req r = finishTokenExchange t params orig r) := by
  refine ⟨fun hra => ?_, fun hra hoid => ?_, fun hra hoid => ?_⟩ <;>
    unfold populateTokenEndpointResponse <;>
    simp only [hgate, hparams, hsubject] <;>
    rw [if_neg (by simp [hclient]), if_neg (by simpa using hgrant)]
  · rw [if_pos (by simpa using hra)]
  · rw [if_neg (by simpa using hra), if_pos (by simpa using hoid)]
  · rw [if_neg (by simpa using hra), if_neg (by simpa using hoid)]

/-- The original authorize request of the C4 witness scenario: its
grant lacks the request-audience scope. -/
def witnessOriginalNoScope : OriginalRequester where
  client := { id := "client-a", grantTypes := [grantTypeTokenExchange] }
  grantedScopes := ["openid", "username"]
  session := witnessSession

/-- A handler whose storage resolves every signature to the
scope-missing original request. -/
def witnessHandlerNoScope : TokenExchangeHandler where
  accessTokenSignature := fun s => s
  getAccessTokenSession := fun _ => .ok witnessOriginalNoScope
  validateAccessTokenCheck := fun _ _ => none
  generateIDToken := fun d => .ok ("jwt-aud:" ++ d.clientID)

/-- Witness for C4: when the original grant lacks the
`pinniped:request-audience` scope, the handler answers access-denied
naming that scope and leaves the responder untouched. -/
theorem spec_c4_witness :
    populateTokenEndpointResponse witnessHandlerNoScope witnessRequest emptyResponder =
      (some (.accessDenied "Missing the \"pinniped:request-audience\" scope."),
       emptyResponder) :=
  (spec_c4_scope_gating witnessHandlerNoScope witnessRequest emptyResponder
    { subjectAccessToken := "subject-token-value", requestedAudience := "cluster-a" }
    witnessOriginalNoScope
    (by decide) (by rfl) (by rfl) (by rfl) (by decide)).1 (by decide)

/-! ## LDAP provider (package upstreamldap)

Embeds the `upstreamldap.Provider` search-then-bind logic.  An LDAP
connection (`Conn`, capability set `{Bind, Search, Close}`) is modelled
by its two observable operations as function fields; `Close` releases a
network resource and has no modelled effect.  A dialer is a function
from the dialed `host:port` string to a connection or an error message;
the production TLS dialer performs network I/O outside this model and
is abstracted exactly like an injected test dialer. -/

/-- Source constant `distinguishedNameAttributeName`. -/
def distinguishedNameAttributeName : String := "dn"

/-- Source constant `userSearchFilterInterpolationLocationMarker` (the
brace-pair marker). -/
def userSearchFilterInterpolationLocationMarker : String := "\x7b\x7d"

/-- Source constant `invalidCredentialsErrorPrefix`: the start of the
go-ldap message for LDAP result code 49. -/
def invalidCredentialsErrStart : String := "LDAP Result Code 49 \"Invalid Credentials\":"

/-- go-ldap constant `ldap.DefaultLdapsPort`. -/
def defaultLdapsPort : String := "636"

/-- go-ldap constant `ldap.ScopeWholeSubtree`. -/
def scopeWholeSubtree : Nat := 2

/-- go-ldap constant `ldap.DerefAlways`. -/
def derefAlways : Nat := 3

/-- Source struct `UserSearchConfig`. -/
structure UserSearchConfig where
  Base : String
  Filter : String
  UsernameAttribute : String
  UIDAttribute : String
deriving DecidableEq, Repr

/-- One attribute of an LDAP entry (`ldap.EntryAttribute`): a name and
its values. -/
structure EntryAttribute where
  name : String
  values : List String
deriving DecidableEq, Repr

/-- An LDAP entry (`ldap.Entry`): a DN and attributes. -/
structure Entry where
  dn : String
  attributes : List EntryAttribute
deriving DecidableEq, Repr

/-- An LDAP search result (`ldap.SearchResult`): the returned entries. -/
structure SearchResult where
  entries : List Entry
deriving DecidableEq, Repr

/-- An LDAP search request (`ldap.SearchRequest`), with the fields the
source sets. -/
structure SearchRequest where
  baseDN : String
  scope : Nat
  derefAliases : Nat
  sizeLimit : Nat
  timeLimit : Nat
  typesOnly : Bool
  filter : String
  attributes : List String
deriving DecidableEq, Repr

/-- The `Conn` capability set: `bindResult u p` is `none` when
`Bind(u, p)` succeeds and `some msg` when it fails with error message
`msg`; `searchResult` gives the outcome of `Search`. -/
structure Conn where
  bindResult : String → String → Option String
  searchResult : SearchRequest → Except String SearchResult

/-- An `LDAPDialer`: from the dialed `host:port` to a connection. -/
def Dialer := String → Except String Conn

/-- Source struct `ProviderConfig`.  `CABundle` is the optional PEM
byte slice; `Dialer` is the (injected or default-TLS) dialer. -/
structure ProviderConfig where
  Name : String
  Host : String
  CABundle : Option (List UInt8)
  BindUsername : String
  BindPassword : String
  UserSearch : UserSearchConfig
  Dialer : Dialer

/-- go-ldap `ldap.Entry.GetAttributeValues`: the values of the first
attribute with the given name, or the empty list. -/
def getAttributeValues (e : Entry) (attributeName : String) : List String :=
  match List.find? (fun attr => attr.name == attributeName) e.attributes with
  | some attr => attr.values
  | none => []

/-- Modelled from the go-ldap library (not repository code):
`ldap.EscapeFilter` escapes every byte in `( ) \ * NUL` or above 0x7f
as a backslash followed by two lowercase hex digits.  The model works
per character rather than per UTF-8 byte; the two agree on ASCII input,
and every string the claims evaluate is ASCII. -/
def mustEscapeFilterChar (c : Char) : Bool :=
  c.toNat > 0x7f || c == '(' || c == ')' || c == '\\' || c == '*' || c.toNat == 0

/-- Lowercase hex digit for a value below 16 (the go-ldap `hexString`
lookup table). -/
def hexDigit (n : Nat) : Char :=
  "0123456789abcdef".toList.getD n '0'

/-- Escape one character as `ldap.EscapeFilter` would. -/
def escapeFilterChar (c : Char) : List Char :=
  if mustEscapeFilterChar c then
    ['\\', hexDigit (c.toNat / 16 % 16), hexDigit (c.toNat % 16)]
  else [c]

/-- Model of `ldap.EscapeFilter` on strings. -/
def escapeFilterStr (s : String) : String :=
  ⟨List.flatten (s.toList.map escapeFilterChar)⟩

/-- Embedding of `(*Provider).escapeUsernameForSearchFilter`. -/
def escapeUsernameForSearchFilter (username : String) : String :=
  escapeFilterStr username

/-- Embedding of `(*Provider).userSearchFilter`. -/
def userSearchFilter (cfg : ProviderConfig) (username : String) : String :=
  let safeUsername := escapeUsernameForSearchFilter username
  if cfg.UserSearch.Filter = "" then
    "(" ++ cfg.UserSearch.UsernameAttribute ++ "=" ++ safeUsername ++ ")"
  else
    let filter := strReplaceAll cfg.UserSearch.Filter
      userSearchFilterInterpolationLocationMarker safeUsername
    if strStartsWith filter "(" = true ∧ strEndsWith filter ")" = true then filter
    else "(" ++ filter ++ ")"

/-- Embedding of `(*Provider).userSearchRequestedAttributes`. -/
def userSearchRequestedAttributes (cfg : ProviderConfig) : List String :=
  (if cfg.UserSearch.UsernameAttribute ≠ distinguishedNameAttributeName then
    [cfg.UserSearch.UsernameAttribute] else []) ++
  (if cfg.UserSearch.UIDAttribute ≠ distinguishedNameAttributeName then
    [cfg.UserSearch.UIDAttribute] else [])

/-- Embedding of `(*Provider).userSearchRequest`. -/
def userSearchRequest (cfg : ProviderConfig) (username : String) : SearchRequest where
  baseDN := cfg.UserSearch.Base
  scope := scopeWholeSubtree
  derefAliases := derefAlways
  sizeLimit := 2
  timeLimit := 90
  typesOnly := false
  filter := userSearchFilter cfg username
  attributes := userSearchRequestedAttributes cfg

/-- Embedding of `(*Provider).getSearchResultAttributeValue`. -/
def getSearchResultAttributeValue (attributeName : String) (fromUserEntry : Entry)
    (username : String) : Except String String :=
  if attributeName = distinguishedNameAttributeName then
    .ok fromUserEntry.dn
  else
    match getAttributeValues fromUserEntry attributeName with
    | [attributeValue] =>
      if attributeValue = "" then
        .error s!"found empty value for attribute \"{attributeName}\" while searching for user \"{username}\", but expected value to be non-empty"
      else
        .ok attributeValue
    | attributeValues =>
      let n := attributeValues.length
      .error s!"found {n} values for attribute \"{attributeName}\" while searching for user \"{username}\", but expected 1 result"

/-- Embedding of `(*Provider).validateConfig`: `none` is a nil error. -/
def validateConfig (cfg : ProviderConfig) : Option String :=
  if cfg.UserSearch.UsernameAttribute = distinguishedNameAttributeName ∧
      cfg.UserSearch.Filter = "" then
    some "must specify UserSearch Filter when UserSearch UsernameAttribute is \"dn\""
  else
    none

/-- Embedding of `(*Provider).searchAndBindUser`.  Returns the mapped
username and UID; the pair `("", "")` with a nil error encodes the
user-not-found and invalid-credentials outcomes, exactly as in the
source. -/
def searchAndBindUser (cfg : ProviderConfig) (conn : Conn) (username : String)
    (bindFunc : Conn → String → Option String) : Except String (String × String) :=
  match conn.searchResult (userSearchRequest cfg username) with
  | .error e => .error s!"error searching for user \"{username}\": {e}"
  | .ok searchResult =>
    match searchResult.entries with
    | [] => .ok ("", "")
    | _ :: _ :: _ =>
      let n := searchResult.entries.length
      .error s!"searching for user \"{username}\" resulted in {n} search results, but expected 1 result"
    | [userEntry] =>
      if userEntry.dn = "" then
        .error s!"searching for user \"{username}\" resulted in search result without DN"
      else
        match getSearchResultAttributeValue cfg.UserSearch.UsernameAttribute userEntry username with
        | .error e => .error e
        | .ok mappedUsername =>
          match getSearchResultAttributeValue cfg.UserSearch.UIDAttribute userEntry username with
          | .error e => .error e
          | .ok mappedUID =>
            match bindFunc conn userEntry.dn with
            | some bindErr =>
              if strStartsWith bindErr invalidCredentialsErrStart then
                .ok ("", "")
              else
                .error s!"error binding for user \"{username}\" using provided password against DN \"{userEntry.dn}\": {bindErr}"
            | none => .ok (mappedUsername, mappedUID)

/-! ## Host/port normalization

`hostAndPortWithDefaultPort` delegates to the Go standard library's
`net.SplitHostPort` and `net.JoinHostPort`; both are modelled here from
their stdlib semantics (per byte of the address, here per character). -/

/-- Index of the last occurrence of `t` (the stdlib `last` scan),
starting the count at `i`. -/
def lastIdxOfAux (t : Char) : List Char → Nat → Option Nat
  | [], _ => none
  | c :: cs, i =>
    match lastIdxOfAux t cs (i + 1) with
    | some j => some j
    | none => if c == t then some i else none

/-- Index of the last occurrence of `t` in `cs`, if any. -/
def lastIdxOf (cs : List Char) (t : Char) : Option Nat :=
  lastIdxOfAux t cs 0

/-- Index of the first occurrence of `t` (the stdlib `byteIndex` scan),
starting the count at `i`. -/
def firstIdxOfAux (t : Char) : List Char → Nat → Option Nat
  | [], _ => none
  | c :: cs, i => if c == t then some i else firstIdxOfAux t cs (i + 1)

/-- Index of the first occurrence of `t` in `cs`, if any. -/
def firstIdxOf (cs : List Char) (t : Char) : Option Nat :=
  firstIdxOfAux t cs 0

/-- The message format of the stdlib `net.AddrError`:
`"address " + Addr + ": " + Err`. -/
def addrErrMsg (addr why : String) : String :=
  "address " ++ addr ++ ": " ++ why

/-- Model of the Go stdlib `net.SplitHostPort`: the port starts after
the last colon; a leading `[` must pair with a `]` immediately before that
colon; stray brackets or extra colons are errors. -/
def splitHostPort (hostPort : String) : Except String (String × String) :=
  let cs := hostPort.toList
  match lastIdxOf cs ':' with
  | none => .error (addrErrMsg hostPort "missing port in address")
  | some i =>
    if cs.head? = some '[' then
      match firstIdxOf cs ']' with
      | none => .error (addrErrMsg hostPort "missing \x27]\x27 in address")
      | some e =>
        if e + 1 = cs.length then
          .error (addrErrMsg hostPort "missing port in address")
        else if e + 1 = i then
          if listHasChar (cs.drop 1) '[' then
            .error (addrErrMsg hostPort "missing \x27[\x27 in address")
          else if listHasChar (cs.drop (e + 1)) ']' then
            .error (addrErrMsg hostPort "missing \x27]\x27 in address")
          else
            .ok (⟨(cs.drop 1).take (e - 1)⟩, ⟨cs.drop (i + 1)⟩)
        else if cs.get? (e + 1) = some ':' then
          .error (addrErrMsg hostPort "too many colons in address")
        else
          .error (addrErrMsg hostPort "missing port in address")
    else
      let host := cs.take i
      if listHasChar host ':' then
        .error (addrErrMsg hostPort "too many colons in address")
      else if listHasChar cs '[' then
        .error (addrErrMsg hostPort "missing \x27[\x27 in address")
      else if listHasChar cs ']' then
        .error (addrErrMsg hostPort "missing \x27]\x27 in address")
      else
        .ok (⟨host⟩, ⟨cs.drop (i + 1)⟩)

/-- Model of the Go stdlib `net.JoinHostPort`: brackets the host when
it contains a colon (assumed to be an IPv6 literal). -/
def joinHostPort (host port : String) : String :=
  if listHasChar host.toList ':' then "[" ++ host ++ "]:" ++ port
  else host ++ ":" ++ port

/-- The switch at the end of `hostAndPortWithDefaultPort`, applied to
the split (or defaulted) host and port. -/
def hostAndPortSwitch (host port : String) : String :=
  if port ≠ "" ∧ strStartsWith host "[" = true ∧ strEndsWith host "]" = true then
    host ++ ":" ++ port
  else if port ≠ "" then
    joinHostPort host port
  else
    host

/-- Embedding of `hostAndPortWithDefaultPort`: adds the default port if
`hostAndPort` did not already include one, recognising the missing-port
case by the suffix of the split error. -/
def hostAndPortWithDefaultPort (hostAndPort defaultPort : String) : Except String String :=
  match splitHostPort hostAndPort with
  | .ok (host, port) => .ok (hostAndPortSwitch host port)
  | .error e =>
    if strEndsWith e ": missing port in address" then
      .ok (hostAndPortSwitch hostAndPort defaultPort)
    else
      .error e

/-! ## Provider operations -/

/-- Embedding of `(*Provider).dial`: normalise the host and port and
hand the result to the dialer (injected, or the TLS dialer abstracted
the same way).  A normalisation failure is wrapped as a go-ldap
network-class error. -/
def dial (cfg : ProviderConfig) : Except String Conn :=
  match hostAndPortWithDefaultPort cfg.Host defaultLdapsPort with
  | .error e => .error s!"LDAP Result Code 200 \"Network Error\": {e}"
  | .ok hostAndPort => cfg.Dialer hostAndPort

/-- Embedding of `(*Provider).GetName`. -/
def getName (cfg : ProviderConfig) : String :=
  cfg.Name

/-- Embedding of `(*Provider).GetURL`. -/
def getURL (cfg : ProviderConfig) : String :=
  "ldaps://" ++ cfg.Host

/-- Embedding of `(*Provider).TestConnection`: validate the config,
dial, bind with the service credentials; `none` is a nil error. -/
def TestConnection (cfg : ProviderConfig) : Option String :=
  match validateConfig cfg with
  | some e => some e
  | none =>
    match dial cfg with
    | .error e =>
      let host := cfg.Host
      some s!"error dialing host \"{host}\": {e}"
    | .ok conn =>
      match conn.bindResult cfg.BindUsername cfg.BindPassword with
      | some e =>
        let bindUsername := cfg.BindUsername
        some s!"error binding as \"{bindUsername}\": {e}"
      | none => none

/-- Embedding of `(*Provider).authenticateUserImpl`.  The Go triple
`(*authenticator.Response, bool, error)` becomes
`Except String (Option AuthResponse)`: `.error` for a non-nil error,
`.ok none` for `(nil, false, nil)` and `.ok (some resp)` for success. -/
def authenticateUserImpl (cfg : ProviderConfig) (username : String)
    (bindFunc : Conn → String → Option String) :
    Except String (Option (String × String × List String)) :=
  match validateConfig cfg with
  | some e => .error e
  | none =>
    if username = "" then
      .ok none
    else
      match dial cfg with
      | .error e =>
        let host := cfg.Host
        .error s!"error dialing host \"{host}\": {e}"
      | .ok conn =>
        match conn.bindResult cfg.BindUsername cfg.BindPassword with
        | some e =>
          let bindUsername := cfg.BindUsername
          .error s!"error binding as \"{bindUsername}\" before user search: {e}"
        | none =>
          match searchAndBindUser cfg conn username bindFunc with
          | .error e => .error e
          | .ok (mappedUsername, mappedUID) =>
            if mappedUsername = "" ∨ mappedUID = "" then
              .ok none
            else
              .ok (some (mappedUsername, mappedUID, []))

/-- Embedding of `(*Provider).AuthenticateUser`: the end-user bind
function binds as the discovered DN with the supplied password. -/
def AuthenticateUser (cfg : ProviderConfig) (username password : String) :
    Except String (Option (String × String × List String)) :=
  authenticateUserImpl cfg username (fun conn foundUserDN => conn.bindResult foundUserDN password)

/-- Embedding of `(*Provider).DryRunAuthenticateUser`: the end-user
bind function always succeeds. -/
def DryRunAuthenticateUser (cfg : ProviderConfig) (username : String) :
    Except String (Option (String × String × List String)) :=
  authenticateUserImpl cfg username (fun _ _ => none)

/-! ## Claims about the LDAP provider (C5, C6, C7) -/

/-- C6: for every username, the search filter sent to the server is
`"(" ++ UsernameAttribute ++ "=" ++ escape(U) ++ ")"` when the
configured Filter is empty, and otherwise the configured Filter with
every occurrence of the brace-pair marker replaced by `escape(U)`,
wrapped in outer parentheses unless the substituted string already
begins with `(` and ends with `)`. -/
theorem spec_c6_user_search_filter (cfg : ProviderConfig) (u : String) :
    (cfg.UserSearch.Filter = "" →
      userSearchFilter cfg u =
        "(" ++ cfg.UserSearch.UsernameAttribute ++ "=" ++ escapeFilterStr u ++ ")")
    ∧ (cfg.UserSearch.Filter ≠ "" →
      userSearchFilter cfg u =
        (let f := strReplaceAll cfg.UserSearch.Filter
           userSearchFilterInterpolationLocationMarker (escapeFilterStr u)
         if strStartsWith f "(" = true ∧ strEndsWith f ")" = true then f
         else "(" ++ f ++ ")")) := by
  refine ⟨fun h => ?_, fun h => ?_⟩ <;>
    simp [userSearchFilter, escapeUsernameForSearchFilter, h]

/-- A dialer that never reaches the network; connections obtained from
it do not exist. -/
def nullDialer : Dialer := fun _ => .error "no network"

/-- A concrete configuration with an empty Filter (cn/uid mapping). -/
def cfgEmptyFilter : ProviderConfig where
  Name := "ldap-upstream"
  Host := "ldap.example.com"
  CABundle := none
  BindUsername := "cn=bind,dc=x"
  BindPassword := "bind-pw"
  UserSearch := { Base := "ou=users,dc=x", Filter := "", UsernameAttribute := "cn",
                  UIDAttribute := "uid" }
  Dialer := nullDialer

/-- A concrete configuration with an explicit Filter containing the
interpolation marker. -/
def cfgMailFilter : ProviderConfig where
  Name := "ldap-upstream"
  Host := "ldap.example.com"
  CABundle := none
  BindUsername := "cn=bind,dc=x"
  BindPassword := "bind-pw"
  UserSearch := { Base := "ou=users,dc=x", Filter := "mail=\x7b\x7d",
                  UsernameAttribute := "dn", UIDAttribute := "uid" }
  Dialer := nullDialer

/-- Witness for C6: the empty-Filter config on the username `ali*ce`
(which needs escaping) produces exactly the claimed equality, and the
`mail=` filter (no surrounding parentheses of its own) is substituted
and wrapped. -/
theorem spec_c6_witness :
    userSearchFilter cfgEmptyFilter "ali*ce" =
      "(" ++ cfgEmptyFilter.UserSearch.UsernameAttribute ++ "=" ++
        escapeFilterStr "ali*ce" ++ ")" ∧
    userSearchFilter cfgMailFilter "ali*ce" = "(mail=ali\x5c2ace)" :=
  ⟨(spec_c6_user_search_filter cfgEmptyFilter "ali*ce").1 rfl,
   by
    have h := (spec_c6_user_search_filter cfgMailFilter "ali*ce").2 (by decide)
    rw [h]; rfl⟩

/-- C7: a config whose UsernameAttribute is `"dn"` with an empty Filter
makes `AuthenticateUser`, `DryRunAuthenticateUser` and `TestConnection`
all fail with the config error — for every dialer (so no dial or bind
is ever consulted) and every username and password; and config
validation passes exactly for the configs not violating this
invariant. -/
theorem spec_c7_dn_requires_nonempty_filter (cfg : ProviderConfig) :
    (cfg.UserSearch.UsernameAttribute = distinguishedNameAttributeName →
     cfg.UserSearch.Filter = "" →
      (∀ d username password,
        AuthenticateUser { cfg with Dialer := d } username password =
          .error "must specify UserSearch Filter when UserSearch UsernameAttribute is \"dn\"") ∧
      (∀ d username,
        DryRunAuthenticateUser { cfg with Dialer := d } username =
          .error "must specify UserSearch Filter when UserSearch UsernameAttribute is \"dn\"") ∧
      (∀ d, TestConnection { cfg with Dialer := d } =
          some "must specify UserSearch Filter when UserSearch UsernameAttribute is \"dn\""))
    ∧ (validateConfig cfg = none ↔
       ¬(cfg.UserSearch.UsernameAttribute = distinguishedNameAttributeName ∧
         cfg.UserSearch.Filter = "")) := by
  constructor
  · intro hdn hfil
    refine ⟨fun d username password => ?_, fun d username => ?_, fun d => ?_⟩ <;>
      simp [AuthenticateUser, DryRunAuthenticateUser, authenticateUserImpl,
        TestConnection, validateConfig, hdn, hfil]
  · constructor
    · intro h hcontra
      simp [validateConfig, hcontra.1, hcontra.2] at h
    · intro h
      simp only [validateConfig, if_neg h]

/-- Witness for C7: the dn-without-Filter config is rejected with the
config error before consulting the dialer, and the empty-Filter cn
config passes validation. -/
theorem spec_c7_witness :
    AuthenticateUser
      { cfgMailFilter with
          UserSearch := { cfgMailFilter.UserSearch with Filter := "" },
          Dialer := nullDialer } "alice" "pw" =
      .error "must specify UserSearch Filter when UserSearch UsernameAttribute is \"dn\"" ∧
    validateConfig cfgEmptyFilter = none :=
  ⟨((spec_c7_dn_requires_nonempty_filter
      { cfgMailFilter with
          UserSearch := { cfgMailFilter.UserSearch with Filter := "" } }).1
      rfl rfl).1 nullDialer "alice" "pw",
   (spec_c7_dn_requires_nonempty_filter cfgEmptyFilter).2.2 (by decide)⟩

/-- The two silent-failure outcomes of `searchAndBindUser`: the user
search returned zero entries, or the single discovered entry's end-user
bind failed with a message carrying the LDAP code-49 invalid-credentials
start. -/
def searchSilentFailure (cfg : ProviderConfig) (conn : Conn) (username : String)
    (bindFunc : Conn → String → Option String) : Prop :=
  (∃ sr, conn.searchResult (userSearchRequest cfg username) = .ok sr ∧ sr.entries = [])
  ∨ (∃ sr entry mu mid msg,
      conn.searchResult (userSearchRequest cfg username) = .ok sr ∧
      sr.entries = [entry] ∧ ¬ entry.dn = "" ∧
      getSearchResultAttributeValue cfg.UserSearch.UsernameAttribute entry username = .ok mu ∧
      getSearchResultAttributeValue cfg.UserSearch.UIDAttribute entry username = .ok mid ∧
      bindFunc conn entry.dn = some msg ∧
      strStartsWith msg invalidCredentialsErrStart = true)

/-- A successfully extracted attribute value is never empty when the
entry's DN is non-empty (the DN branch returns the DN, the attribute
branch rejects empty values). -/
theorem getSearchResultAttributeValue_ne_empty (attributeName : String) (e : Entry)
    (u v : String) (hdn : ¬ e.dn = "")
    (h : getSearchResultAttributeValue attributeName e u = .ok v) : ¬ v = "" := by
  unfold getSearchResultAttributeValue at h
  split at h
  · simp only [Except.ok.injEq] at h
    subst h
    exact hdn
  · split at h
    · split at h
      · cases h
      · simp only [Except.ok.injEq] at h
        subst h
        assumption
    · cases h

/-- A silent failure makes `searchAndBindUser` return `("", "")` with a
nil error. -/
theorem searchAndBindUser_of_silent (cfg : ProviderConfig) (conn : Conn)
    (username : String) (bindFunc : Conn → String → Option String)
    (h : searchSilentFailure cfg conn username bindFunc) :
    searchAndBindUser cfg conn username bindFunc = .ok ("", "") := by
  rcases h with ⟨sr, hs, hent⟩ | ⟨sr, entry, mu, mid, msg, hs, hent, hdn, hmu, hmid, hbind, hpre⟩
  · simp only [searchAndBindUser, hs, hent]
  · simp only [searchAndBindUser, hs, hent, hdn, hmu, hmid, hbind, hpre, if_false,
      if_true, ite_false, ite_true]

/-- Conversely, whenever `searchAndBindUser` returns a nil error with an
empty mapped username or UID, one of the two silent-failure cases holds
(and both returned values are in fact empty). -/
theorem searchAndBindUser_empty_to_silent (cfg : ProviderConfig) (conn : Conn)
    (username : String) (bindFunc : Conn → String → Option String) (mu mid : String)
    (h : searchAndBindUser cfg conn username bindFunc = .ok (mu, mid))
    (hemp : mu = "" ∨ mid = "") :
    searchSilentFailure cfg conn username bindFunc := by
  unfold searchAndBindUser at h
  cases hs : conn.searchResult (userSearchRequest cfg username) with
  | error e => simp only [hs] at h; cases h
  | ok sr =>
    simp only [hs] at h
    cases hent : sr.entries with
    | nil =>
      exact Or.inl ⟨sr, hs, hent⟩
    | cons e1 rest =>
      cases rest with
      | cons e2 rest2 =>
        simp only [hent] at h
        cases h
      | nil =>
        simp only [hent] at h
        by_cases hdn : e1.dn = ""
        · simp only [hdn, if_true, ite_true] at h
          simp at h
        · rw [if_neg (by simpa using hdn)] at h
          cases hmu : getSearchResultAttributeValue cfg.UserSearch.UsernameAttribute e1 username with
          | error e => simp only [hmu] at h; cases h
          | ok mu' =>
            simp only [hmu] at h
            cases hmid : getSearchResultAttributeValue cfg.UserSearch.UIDAttribute e1 username with
            | error e => simp only [hmid] at h; cases h
            | ok mid' =>
              simp only [hmid] at h
              cases hbind : bindFunc conn e1.dn with
              | some msg =>
                simp only [hbind] at h
                by_cases hpre : strStartsWith msg invalidCredentialsErrStart = true
                · exact Or.inr ⟨sr, e1, mu', mid', msg, hs, hent, hdn, hmu, hmid, hbind, hpre⟩
                · rw [if_neg (by simpa using hpre)] at h
                  cases h
              | none =>
                simp only [hbind, Except.ok.injEq, Prod.mk.injEq] at h
                obtain ⟨h1, h2⟩ := h
                subst h1
                subst h2
                rcases hemp with hemp | hemp
                · exact absurd hemp
                    (getSearchResultAttributeValue_ne_empty _ _ _ _ hdn hmu)
                · exact absurd hemp
                    (getSearchResultAttributeValue_ne_empty _ _ _ _ hdn hmid)

/-- For a valid config, `authenticateUserImpl` returns `(nil, false,
nil)` exactly when the username is empty or the connection was obtained
and service-bound and a silent failure occurred. -/
theorem authImpl_ok_none_iff (cfg : ProviderConfig) (username : String)
    (bindFunc : Conn → String → Option String)
    (hval : validateConfig cfg = none) :
    authenticateUserImpl cfg username bindFunc = .ok none ↔
      (username = "" ∨ ∃ conn, dial cfg = .ok conn ∧
        conn.bindResult cfg.BindUsername cfg.BindPassword = none ∧
        searchSilentFailure cfg conn username bindFunc) := by
  constructor
  · intro h
    unfold authenticateUserImpl at h
    simp only [hval] at h
    by_cases hu : username = ""
    · exact Or.inl hu
    · rw [if_neg hu] at h
      refine Or.inr ?_
      cases hd : dial cfg with
      | error e => simp only [hd] at h; cases h
      | ok conn =>
        simp only [hd] at h
        cases hb : conn.bindResult cfg.BindUsername cfg.BindPassword with
        | some e => simp only [hb] at h; cases h
        | none =>
          simp only [hb] at h
          cases hsab : searchAndBindUser cfg conn username bindFunc with
          | error e => simp only [hsab] at h; cases h
          | ok pair =>
            obtain ⟨mu, mid⟩ := pair
            simp only [hsab] at h
            by_cases hemp : mu = "" ∨ mid = ""
            · exact ⟨conn, rfl, hb,
                searchAndBindUser_empty_to_silent cfg conn username bindFunc mu mid hsab hemp⟩
            · rw [if_neg hemp] at h
              cases h
  · intro h
    rcases h with hu | ⟨conn, hd, hb, hsf⟩
    · simp only [authenticateUserImpl, hval, hu, if_true, ite_true]
    · have hsab := searchAndBindUser_of_silent cfg conn username bindFunc hsf
      by_cases hu : username = ""
      · simp only [authenticateUserImpl, hval, hu, if_true, ite_true]
      · simp only [authenticateUserImpl, hval, if_neg hu, hd, hb, hsab]
        simp

/-- For a valid config, a user search that comes back with two or more
entries always makes `authenticateUserImpl` fail with an error. -/
theorem authImpl_multi_entries_error (cfg : ProviderConfig) (username : String)
    (bindFunc : Conn → String → Option String) (conn : Conn) (sr : SearchResult)
    (hval : validateConfig cfg = none) (hu : username ≠ "")
    (hd : dial cfg = .ok conn)
    (hb : conn.bindResult cfg.BindUsername cfg.BindPassword = none)
    (hs : conn.searchResult (userSearchRequest cfg username) = .ok sr)
    (hlen : 2 ≤ sr.entries.length) :
    ∃ msg, authenticateUserImpl cfg username bindFunc = .error msg := by
  cases hent : sr.entries with
  | nil => rw [hent] at hlen; simp at hlen
  | cons e1 rest =>
    cases rest with
    | nil => rw [hent] at hlen; simp at hlen
    | cons e2 rest2 =>
      simp only [authenticateUserImpl, hval, if_neg hu, hd, hb, searchAndBindUser, hs, hent]
      exact ⟨_, rfl⟩

/-- C5: for every valid config, `AuthenticateUser` and
`DryRunAuthenticateUser` return `(nil, false, nil)` (here `.ok none`)
exactly when the username is empty, the user search returns zero
entries, or the end-user bind fails with a message starting with the
LDAP code-49 invalid-credentials text (for the dry run the bind
function never fails, so its disjunct is never exercised); and a search
returning two or more entries always produces an error. -/
theorem spec_c5_silent_failure_cases (cfg : ProviderConfig) (username password : String)
    (hval : validateConfig cfg = none) :
    (AuthenticateUser cfg username password = .ok none ↔
      (username = "" ∨ ∃ conn, dial cfg = .ok conn ∧
        conn.bindResult cfg.BindUsername cfg.BindPassword = none ∧
        searchSilentFailure cfg conn username
          (fun conn foundUserDN => conn.bindResult foundUserDN password)))
    ∧ (DryRunAuthenticateUser cfg username = .ok none ↔
      (username = "" ∨ ∃ conn, dial cfg = .ok conn ∧
        conn.bindResult cfg.BindUsername cfg.BindPassword = none ∧
        searchSilentFailure cfg conn username (fun _ _ => none)))
    ∧ (∀ conn sr, username ≠ "" → dial cfg = .ok conn →
        conn.bindResult cfg.BindUsername cfg.BindPassword = none →
        conn.searchResult (userSearchRequest cfg username) = .ok sr →
        2 ≤ sr.entries.length →
        (∃ msg, AuthenticateUser cfg username password = .error msg) ∧
        (∃ msg, DryRunAuthenticateUser cfg username = .error msg)) := by
  refine ⟨?_, ?_, ?_⟩
  · exact authImpl_ok_none_iff cfg username _ hval
  · exact authImpl_ok_none_iff cfg username _ hval
  · intro conn sr hu hd hb hs hlen
    exact ⟨authImpl_multi_entries_error cfg username _ conn sr hval hu hd hb hs hlen,
      authImpl_multi_entries_error cfg username _ conn sr hval hu hd hb hs hlen⟩

/-- A connection whose searches always come back empty. -/
def connNoResults : Conn where
  bindResult := fun _ _ => none
  searchResult := fun _ => .ok { entries := [] }

/-- The empty-Filter config wired to a dialer producing the
empty-search connection. -/
def cfgNoResults : ProviderConfig :=
  { cfgEmptyFilter with Dialer := fun _ => .ok connNoResults }

/-- Witness for C5: with a valid config and a server knowing no users,
authentication for `alice` silently fails with `(nil, false, nil)`. -/
theorem spec_c5_witness :
    AuthenticateUser cfgNoResults "alice" "pw" = .ok none :=
  (spec_c5_silent_failure_cases cfgNoResults "alice" "pw" rfl).1.mpr
    (Or.inr ⟨connNoResults, rfl, rfl, Or.inl ⟨{ entries := [] }, rfl, rfl⟩⟩)

/-! ## Claim about host/port normalization (C8) -/

/-- Scanning an appended list for a character scans both halves. -/
theorem listHasChar_append (l₁ l₂ : List Char) (t : Char) :
    listHasChar (l₁ ++ l₂) t = (listHasChar l₁ t || listHasChar l₂ t) := by
  induction l₁ with
  | nil => simp [listHasChar]
  | cons c cs ih => simp [listHasChar, ih, Bool.or_assoc]

/-- The last-index scan finds nothing in a list without the character. -/
theorem lastIdxOfAux_none (t : Char) (l : List Char) (i : Nat)
    (h : listHasChar l t = false) : lastIdxOfAux t l i = none := by
  induction l generalizing i with
  | nil => rfl
  | cons c cs ih =>
    simp only [listHasChar, Bool.or_eq_false_iff] at h
    unfold lastIdxOfAux
    rw [ih (i + 1) h.2]
    simp [h.1]

/-- Appending a suffix without the character does not change the
last-index scan. -/
theorem lastIdxOfAux_append (t : Char) (l₁ l₂ : List Char) (i : Nat)
    (h : listHasChar l₂ t = false) :
    lastIdxOfAux t (l₁ ++ l₂) i = lastIdxOfAux t l₁ i := by
  induction l₁ generalizing i with
  | nil =>
    simp only [List.nil_append]
    rw [lastIdxOfAux_none t l₂ i h]
    rfl
  | cons c cs ih =>
    simp only [List.cons_append]
    unfold lastIdxOfAux
    rw [ih (i + 1)]

/-- Splitting `"h:" ++ D` for a colon- and bracket-free port `D`
recovers host `h` and port `D`. -/
theorem splitHostPort_h_colon (D : String)
    (hc : listHasChar D.toList ':' = false)
    (hl : listHasChar D.toList '[' = false)
    (hr : listHasChar D.toList ']' = false) :
    splitHostPort ("h:" ++ D) = .ok ("h", D) := by
  have hcs : ("h:" ++ D).toList = ['h', ':'] ++ D.toList := by
    show ("h:" ++ D).data = ['h', ':'] ++ D.data
    rw [String.data_append]
  have hlast : lastIdxOf (['h', ':'] ++ D.toList) ':' = some 1 := by
    unfold lastIdxOf
    rw [lastIdxOfAux_append ':' ['h', ':'] D.toList 0 hc]
    decide
  simp only [splitHostPort, hcs, hlast]
  rw [if_neg (by rw [show (['h', ':'] ++ D.toList).head? = some 'h' from rfl]; decide)]
  rw [if_neg (by rw [show List.take 1 (['h', ':'] ++ D.toList) = ['h'] from rfl]; decide)]
  rw [if_neg (by rw [listHasChar_append, hl]; decide)]
  rw [if_neg (by rw [listHasChar_append, hr]; decide)]
  rfl

/-- Splitting `"[::1]:" ++ D` for a colon- and bracket-free port `D`
recovers host `::1` (brackets stripped) and port `D`. -/
theorem splitHostPort_bracket_colon (D : String)
    (hc : listHasChar D.toList ':' = false)
    (hl : listHasChar D.toList '[' = false)
    (hr : listHasChar D.toList ']' = false) :
    splitHostPort ("[::1]:" ++ D) = .ok ("::1", D) := by
  have hcs : ("[::1]:" ++ D).toList = ['[', ':', ':', '1', ']', ':'] ++ D.toList := by
    show ("[::1]:" ++ D).data = ['[', ':', ':', '1', ']', ':'] ++ D.data
    rw [String.data_append]
  have hlast : lastIdxOf (['[', ':', ':', '1', ']', ':'] ++ D.toList) ':' = some 5 := by
    unfold lastIdxOf
    rw [lastIdxOfAux_append ':' ['[', ':', ':', '1', ']', ':'] D.toList 0 hc]
    decide
  have hfirst : firstIdxOf (['[', ':', ':', '1', ']', ':'] ++ D.toList) ']' = some 4 := rfl
  have hd1 : List.drop 1 (['[', ':', ':', '1', ']', ':'] ++ D.toList) =
      [':', ':', '1', ']', ':'] ++ D.toList := rfl
  have hd5 : List.drop (4 + 1) (['[', ':', ':', '1', ']', ':'] ++ D.toList) =
      [':'] ++ D.toList := rfl
  simp only [splitHostPort, hcs, hlast, hfirst]
  rw [if_pos (show (['[', ':', ':', '1', ']', ':'] ++ D.toList).head? = some '[' from rfl)]
  rw [if_neg (by simp [List.length_append])]
  rw [if_pos (by decide)]
  rw [if_neg (by rw [hd1, listHasChar_append, hl]; decide)]
  rw [if_neg (by rw [hd5, listHasChar_append, hr]; decide)]
  rfl

/-- C8: for each host shape `h`, `h:port`, `[::1]`, `[::1]:port` and
every default port `D` (non-empty, free of colons and brackets, as any
literal port number is), normalization succeeds with a string the
standard splitter parses back: inputs already carrying a port are
preserved verbatim, and port-less inputs get `":" ++ D` appended via
the standard join, without doubling existing IPv6 brackets. -/
theorem spec_c8_host_port_normalization (D : String) (hne : D ≠ "")
    (hc : listHasChar D.toList ':' = false)
    (hl : listHasChar D.toList '[' = false)
    (hr : listHasChar D.toList ']' = false) :
    (hostAndPortWithDefaultPort "h" D = .ok ("h:" ++ D) ∧
      splitHostPort ("h:" ++ D) = .ok ("h", D)) ∧
    (hostAndPortWithDefaultPort "h:port" D = .ok "h:port" ∧
      splitHostPort "h:port" = .ok ("h", "port")) ∧
    (hostAndPortWithDefaultPort "[::1]" D = .ok ("[::1]:" ++ D) ∧
      splitHostPort ("[::1]:" ++ D) = .ok ("::1", D)) ∧
    (hostAndPortWithDefaultPort "[::1]:port" D = .ok "[::1]:port" ∧
      splitHostPort "[::1]:port" = .ok ("::1", "port")) := by
  refine ⟨⟨?_, splitHostPort_h_colon D hc hl hr⟩, ⟨rfl, rfl⟩,
    ⟨?_, splitHostPort_bracket_colon D hc hl hr⟩, ⟨rfl, rfl⟩⟩
  · simp only [hostAndPortWithDefaultPort,
      show splitHostPort "h" = .error (addrErrMsg "h" "missing port in address") from rfl]
    rw [if_pos (by decide)]
    simp only [hostAndPortSwitch, joinHostPort]
    rw [if_neg (by rintro ⟨-, hx, -⟩; revert hx; decide)]
    rw [if_pos hne]
    rw [if_neg (by decide)]
    rfl
  · simp only [hostAndPortWithDefaultPort,
      show splitHostPort "[::1]" = .error (addrErrMsg "[::1]" "missing port in address") from rfl]
    rw [if_pos (by decide)]
    simp only [hostAndPortSwitch]
    rw [if_pos ⟨hne, by decide, by decide⟩]
    rfl

/-- Witness for C8 at the production default LDAPS port `636`. -/
theorem spec_c8_witness :
    (hostAndPortWithDefaultPort "h" "636" = .ok ("h:" ++ "636") ∧
      splitHostPort ("h:" ++ "636") = .ok ("h", "636")) ∧
    (hostAndPortWithDefaultPort "h:port" "636" = .ok "h:port" ∧
      splitHostPort "h:port" = .ok ("h", "port")) ∧
    (hostAndPortWithDefaultPort "[::1]" "636" = .ok ("[::1]:" ++ "636") ∧
      splitHostPort ("[::1]:" ++ "636") = .ok ("::1", "636")) ∧
    (hostAndPortWithDefaultPort "[::1]:port" "636" = .ok "[::1]:port" ∧
      splitHostPort "[::1]:port" = .ok ("::1", "port")) :=
  spec_c8_host_port_normalization "636" (by decide) (by decide) (by decide) (by decide)

/-! ## Claim about GetConfig aliasing (C9)

`GetConfig` executes `return p.c`: a Go struct assignment.  That copies
every field by value — but the `CABundle []byte` field is a slice
descriptor, and copying the descriptor shares the backing byte array.
To reason about this aliasing, the config is re-embedded at the level
of Go's memory semantics for its one reference-typed field: a heap of
backing byte arrays, with `CABundle` holding a reference into it. -/

/-- The heap of `[]byte` backing arrays, addressed by index. -/
def ByteHeap := List (List UInt8)

/-- `ProviderConfig` with its `CABundle` slice modelled as a reference
(`none` is a nil slice).  All other fields are Go values — strings are
immutable in Go — and copy by value. -/
structure ProviderConfigRef where
  Name : String
  Host : String
  CABundle : Option Nat
  BindUsername : String
  BindPassword : String
  UserSearch : UserSearchConfig
deriving DecidableEq, Repr

/-- The provider and its internal config. -/
structure ProviderRef where
  c : ProviderConfigRef
deriving DecidableEq, Repr

/-- Embedding of `New`: the config parameter is passed by value, so the
struct is copied (the CABundle descriptor with it, not its bytes). -/
def newProvider (config : ProviderConfigRef) : ProviderRef := ⟨config⟩

/-- Embedding of `(*Provider).GetConfig`: `return p.c` copies the
struct; the CABundle descriptor in the copy still points at the same
backing array. -/
def getConfig (p : ProviderRef) : ProviderConfigRef := p.c

/-- Embedding of `(*Provider).GetName` for the reference-level model. -/
def getNameRef (p : ProviderRef) : String := p.c.Name

/-- Embedding of `(*Provider).GetURL` for the reference-level model. -/
def getURLRef (p : ProviderRef) : String := "ldaps://" ++ p.c.Host

/-- Reading the bytes of a config's CABundle through its reference. -/
def readCABundle (h : ByteHeap) (cfg : ProviderConfigRef) : Option (List UInt8) :=
  cfg.CABundle.map (fun r => h.getD r [])

/-- The in-place byte mutation `cfg.CABundle[i] = b`: a write through
the slice reference into the backing array. -/
def writeCABundleByte (h : ByteHeap) (cfg : ProviderConfigRef) (i : Nat) (b : UInt8) :
    ByteHeap :=
  match cfg.CABundle with
  | none => h
  | some r => h.set r ((h.getD r []).set i b)

/-- A concrete provider whose CABundle is the one-byte array `[37]`. -/
def c9Provider : ProviderRef :=
  newProvider
    { Name := "ldap-upstream", Host := "ldap.example.com", CABundle := some 0,
      BindUsername := "cn=bind,dc=x", BindPassword := "bind-pw",
      UserSearch := { Base := "ou=users,dc=x", Filter := "", UsernameAttribute := "cn",
                      UIDAttribute := "uid" } }

/-- The heap backing `c9Provider`: one array holding the byte 37. -/
def c9Heap : ByteHeap := [[37]]

/-- Counterexample to C9 as stated: mutating byte 0 of the CABundle of
the value returned by `GetConfig` changes what a subsequent `GetConfig`
(and any bundle-reading operation, such as the default TLS dial)
observes — from `[37]` to `[99]` — because the returned struct's
CABundle shares its backing bytes with the Provider's internal state. -/
theorem spec_c9_counterexample :
    readCABundle (writeCABundleByte c9Heap (getConfig c9Provider) 0 99)
      (getConfig c9Provider) ≠
    readCABundle c9Heap (getConfig c9Provider) := by decide

/-- C9 amended: `GetConfig` returns a struct copy, so the Provider's
own config — and operations reading only its immutable string fields,
such as `GetName` and `GetURL` — are unaffected by whatever is done
with the returned value; but the copy's CABundle field shares its
backing byte array with the Provider's internal config, so an in-place
mutation of those bytes through the returned value is a mutation of the
Provider's own bundle, visible to every subsequent read. -/
theorem spec_c9_getconfig_shallow_copy (p : ProviderRef) (h : ByteHeap)
    (i : Nat) (b : UInt8) :
    getConfig p = p.c ∧
    getNameRef p = p.c.Name ∧
    getURLRef p = "ldaps://" ++ p.c.Host ∧
    (getConfig p).CABundle = p.c.CABundle ∧
    writeCABundleByte h (getConfig p) i b = writeCABundleByte h p.c i b ∧
    readCABundle (writeCABundleByte h (getConfig p) i b) (getConfig p) =
      readCABundle (writeCABundleByte h p.c i b) p.c :=
  ⟨rfl, rfl, rfl, rfl, rfl, rfl⟩
